import Mathlib

/-!
Verification development for the `lyon_rectangle_problem` 2D rendering engine.

The Rust source is shallowly embedded over exact rationals:

* `f32` scalars become `ℚ` (floating-point rounding is abstracted away; the
  claims under study are algebraic/structural, not about rounding).
* The `glam` 4x4 matrix type `Mat4` is embedded as a structure of 16 rational
  entries, row major (`mRC` is row `R`, column `C`); `glam` stores columns
  (`x_axis` is column 0) but the mathematical matrix is the same, and
  `Mat4 * Mat4` / `Mat4 * Vec4` are the ordinary products.
* The source keeps `Transform.rotation` in degrees and evaluates
  `cos`/`sin` of `rotation.to_radians()` inside `Mat4::from_rotation_z`.
  Cosine and sine are irrational, so the embedding carries the pair
  `(rotCos, rotSin) = (cos (rotation.to_radians()), sin (rotation.to_radians()))`
  as the rotation data of a transform.  `from_rotation_z(-θ)` then uses
  `(rotCos, -rotSin)` and `from_rotation_z(θ)` uses `(rotCos, rotSin)`,
  exactly as the trigonometric identities dictate.
-/

namespace LyonRect

/-- Color with 4 normalized components, from `graphics.rs` (`shape.rs` declares
an identical copy; one embedding serves both). -/
structure Color where
  r : ℚ
  g : ℚ
  b : ℚ
  a : ℚ
deriving DecidableEq, Repr

/-- `Color::WHITE` from `graphics.rs`. -/
def Color.WHITE : Color := ⟨1, 1, 1, 1⟩

/-- `Color::BLACK` from `graphics.rs`. -/
def Color.BLACK : Color := ⟨0, 0, 0, 1⟩

/-- `Color::to_array` from `graphics.rs` / `shape.rs`. -/
def Color.to_array (c : Color) : List ℚ := [c.r, c.g, c.b, c.a]

/-- The `glam::Mat4` 4x4 matrix, entries row major (`m02` = row 0, column 2). -/
structure Mat4 where
  m00 : ℚ
  m01 : ℚ
  m02 : ℚ
  m03 : ℚ
  m10 : ℚ
  m11 : ℚ
  m12 : ℚ
  m13 : ℚ
  m20 : ℚ
  m21 : ℚ
  m22 : ℚ
  m23 : ℚ
  m30 : ℚ
  m31 : ℚ
  m32 : ℚ
  m33 : ℚ
deriving DecidableEq, Repr

/-- Ordinary matrix product, the meaning of `Mat4 * Mat4` in `glam`
(`a.mul_mat4(&b)`): entry (i,j) of `matMul a b` is `Σ k, a i k * b k j`. -/
def matMul (a b : Mat4) : Mat4 where
  m00 := a.m00 * b.m00 + a.m01 * b.m10 + a.m02 * b.m20 + a.m03 * b.m30
  m01 := a.m00 * b.m01 + a.m01 * b.m11 + a.m02 * b.m21 + a.m03 * b.m31
  m02 := a.m00 * b.m02 + a.m01 * b.m12 + a.m02 * b.m22 + a.m03 * b.m32
  m03 := a.m00 * b.m03 + a.m01 * b.m13 + a.m02 * b.m23 + a.m03 * b.m33
  m10 := a.m10 * b.m00 + a.m11 * b.m10 + a.m12 * b.m20 + a.m13 * b.m30
  m11 := a.m10 * b.m01 + a.m11 * b.m11 + a.m12 * b.m21 + a.m13 * b.m31
  m12 := a.m10 * b.m02 + a.m11 * b.m12 + a.m12 * b.m22 + a.m13 * b.m32
  m13 := a.m10 * b.m03 + a.m11 * b.m13 + a.m12 * b.m23 + a.m13 * b.m33
  m20 := a.m20 * b.m00 + a.m21 * b.m10 + a.m22 * b.m20 + a.m23 * b.m30
  m21 := a.m20 * b.m01 + a.m21 * b.m11 + a.m22 * b.m21 + a.m23 * b.m31
  m22 := a.m20 * b.m02 + a.m21 * b.m12 + a.m22 * b.m22 + a.m23 * b.m32
  m23 := a.m20 * b.m03 + a.m21 * b.m13 + a.m22 * b.m23 + a.m23 * b.m33
  m30 := a.m30 * b.m00 + a.m31 * b.m10 + a.m32 * b.m20 + a.m33 * b.m30
  m31 := a.m30 * b.m01 + a.m31 * b.m11 + a.m32 * b.m21 + a.m33 * b.m31
  m32 := a.m30 * b.m02 + a.m31 * b.m12 + a.m32 * b.m22 + a.m33 * b.m32
  m33 := a.m30 * b.m03 + a.m31 * b.m13 + a.m32 * b.m23 + a.m33 * b.m33

/-- `Mat4::from_translation(Vec3::new(x, y, z))`: identity with the
translation vector in the last column. -/
def from_translation (x y z : ℚ) : Mat4 where
  m00 := 1
  m01 := 0
  m02 := 0
  m03 := x
  m10 := 0
  m11 := 1
  m12 := 0
  m13 := y
  m20 := 0
  m21 := 0
  m22 := 1
  m23 := z
  m30 := 0
  m31 := 0
  m32 := 0
  m33 := 1

/-- `Mat4::from_rotation_z(angle)`, with `(c, s) = (cos angle, sin angle)`
passed explicitly (the embedding keeps cosine/sine pairs instead of the
irrational angle). -/
def from_rotation_z (c s : ℚ) : Mat4 where
  m00 := c
  m01 := -s
  m02 := 0
  m03 := 0
  m10 := s
  m11 := c
  m12 := 0
  m13 := 0
  m20 := 0
  m21 := 0
  m22 := 1
  m23 := 0
  m30 := 0
  m31 := 0
  m32 := 0
  m33 := 1

/-- `Mat4::from_scale(Vec3::new(x, y, z))`: diagonal scale (note the source
passes `z = 0` in both transform functions; this is kept faithfully). -/
def from_scale (x y z : ℚ) : Mat4 where
  m00 := x
  m01 := 0
  m02 := 0
  m03 := 0
  m10 := 0
  m11 := y
  m12 := 0
  m13 := 0
  m20 := 0
  m21 := 0
  m22 := z
  m23 := 0
  m30 := 0
  m31 := 0
  m32 := 0
  m33 := 1

/-- Application of a `Mat4` to a 2D point, as done throughout `lib.rs`:
`t * Vec4::from((p, 0.0, 1.0))`, keeping components x and y of the result. -/
def transformPt (m : Mat4) (p : ℚ × ℚ) : ℚ × ℚ :=
  (m.m00 * p.1 + m.m01 * p.2 + m.m02 * 0 + m.m03 * 1,
   m.m10 * p.1 + m.m11 * p.2 + m.m12 * 0 + m.m13 * 1)

/-- `components.rs`: `Transform { translation, rotation, scale, origin }`.
The rotation (degrees in the source) is carried as the cosine/sine pair of
`rotation.to_radians()`; see the file header. -/
structure Transform where
  translation : ℚ × ℚ
  rotCos : ℚ
  rotSin : ℚ
  scale : ℚ × ℚ
  origin : ℚ × ℚ
deriving DecidableEq, Repr

/-- `Transform::default()` from `components.rs` (rotation 0 has cos 1, sin 0). -/
def Transform.default : Transform :=
  ⟨(0, 0), 1, 0, (1, 1), (0, 0)⟩

/-- `components.rs` lines 39-48, `compute_transformation_matrix`:
`T(translation - origin) * T(origin) * R(-rotation) * T(-origin) * S(scale)`,
built exactly as the source's sequence of `transform *= ...` steps
(`from_rotation_z(-θ)` has cosine `rotCos` and sine `-rotSin`). -/
def compute_transformation_matrix (t : Transform) : Mat4 :=
  matMul
    (matMul
      (matMul
        (matMul
          (from_translation (t.translation.1 - t.origin.1) (t.translation.2 - t.origin.2) 0)
          (from_translation t.origin.1 t.origin.2 0))
        (from_rotation_z t.rotCos (-t.rotSin)))
      (from_translation (-t.origin.1) (-t.origin.2) 0))
    (from_scale t.scale.1 t.scale.2 0)

/-- `components.rs` lines 50-55, `compute_inverse_transformation_matrix`:
`S(1/scale) * R(rotation) * T(origin - translation)`
(`from_rotation_z(θ)` has cosine `rotCos` and sine `rotSin`; `1.0 / t.scale`
is the componentwise reciprocal). -/
def compute_inverse_transformation_matrix (t : Transform) : Mat4 :=
  matMul
    (matMul
      (from_scale (1 / t.scale.1) (1 / t.scale.2) 0)
      (from_rotation_z t.rotCos t.rotSin))
    (from_translation (t.origin.1 - t.translation.1) (t.origin.2 - t.translation.2) 0)

/-! ## Paths and tessellation (`graphics.rs`)

Every `update` in `graphics.rs` builds a one-primitive `lyon` path
(`add_circle` / `add_rectangle` / `add_polygon` / `add_line_segment`), so a
path is embedded as the primitive it holds.  The `lyon` fill and stroke
tessellators themselves are an external crate; the embedding keeps them as
function-valued fields of `Tesselator` producing, for a path, the list of
vertex positions and the triangle index list of the tessellated geometry
(the colors are baked in by the repository's vertex constructors, which is
embedded explicitly).  `BuffersBuilder::new(&mut geometry, ...)` appends to
the wrapped `VertexBuffers`, offsetting the emitted indices by the number of
vertices the buffer already held; `appendGeometry` is that semantics. -/

/-- A built `lyon` path: exactly the primitives the four `update` functions add. -/
inductive Path where
  | circle (center : ℚ × ℚ) (radius : ℚ)
  | rect (pmin pmax : ℚ × ℚ)
  | polygon (points : List (ℚ × ℚ)) (closed : Bool)
  | segment (pfrom pto : ℚ × ℚ)
deriving DecidableEq, Repr

/-- `GeometryVertex` from `graphics.rs`: a local-space position and a color. -/
structure GeometryVertex where
  position : ℚ × ℚ
  color : Color
deriving DecidableEq, Repr

/-- `lyon::VertexBuffers<GeometryVertex, u16>`: the geometry cache.  Indices
are `u16` values, carried as naturals (every cache index is below 2^16). -/
structure VertexBuffers where
  vertices : List GeometryVertex
  indices : List ℕ
deriving DecidableEq, Repr

/-- `VertexBuffers::new()`: both lists empty. -/
def VertexBuffers.new : VertexBuffers := ⟨[], []⟩

/-- The `Tesselator` of `graphics.rs`: its tolerance plus the two external
`lyon` tessellators, abstracted as the positions/indices they emit for a path
(`fill_tess` at the tolerance; `stroke_tess` at the tolerance and line width).
The position adjustment done by the repository's `StrokeVertexConstructor`s is
part of this abstracted vertex stream. -/
structure Tesselator where
  tolerance : ℚ
  fillTess : Path → ℚ → List (ℚ × ℚ) × List ℕ
  strokeTess : Path → ℚ → ℚ → List (ℚ × ℚ) × List ℕ

/-- `BuffersBuilder` append semantics: push the emitted positions (colored
`color` by the vertex constructor) and the emitted indices offset by the
vertex count the buffer held when the builder was created. -/
def appendGeometry (geometry : VertexBuffers) (out : List (ℚ × ℚ) × List ℕ)
    (color : Color) : VertexBuffers :=
  ⟨geometry.vertices ++ out.1.map (fun p => ⟨p, color⟩),
   geometry.indices ++ out.2.map (fun i => i + geometry.vertices.length)⟩

/-- `Tesselator::tesselate` (`graphics.rs` lines 33-61): fill-tessellate the
path into the buffer with `fill_color`, then, only when
`outline_thickness > 0`, stroke-tessellate it with `outline_color`. -/
def tesselate (tess : Tesselator) (path : Path) (fill_color outline_color : Color)
    (outline_thickness : ℚ) (geometry : VertexBuffers) : VertexBuffers :=
  let g1 := appendGeometry geometry (tess.fillTess path tess.tolerance) fill_color
  if 0 < outline_thickness then
    appendGeometry g1 (tess.strokeTess path tess.tolerance outline_thickness) outline_color
  else
    g1

/-- `Tesselator::tesselate_line` (`graphics.rs` lines 63-80): stroke only,
and only when `outline_thickness > 0`; otherwise the buffer is untouched. -/
def tesselate_line (tess : Tesselator) (path : Path) (outline_color : Color)
    (outline_thickness : ℚ) (geometry : VertexBuffers) : VertexBuffers :=
  if 0 < outline_thickness then
    appendGeometry geometry (tess.strokeTess path tess.tolerance outline_thickness) outline_color
  else
    geometry

/-- `CircleShape` from `graphics.rs`. -/
structure CircleShape where
  radius : ℚ
  fill_color : Color
  outline_thickness : ℚ
  outline_color : Color
  geometry : VertexBuffers
deriving DecidableEq, Repr

/-- `CircleShape::default()`. -/
def CircleShape.default : CircleShape :=
  ⟨0, Color.WHITE, 0, Color.WHITE, VertexBuffers.new⟩

/-- `CircleShape::update` (`graphics.rs` lines 195-213): build the circle path
centered at `(radius, radius)` and tessellate into the cache. -/
def CircleShape.update (s : CircleShape) (tess : Tesselator) : CircleShape :=
  { s with geometry :=
      (tesselate tess (Path.circle (s.radius, s.radius) s.radius)
        s.fill_color s.outline_color s.outline_thickness s.geometry) }

/-- `RectangleShape` from `graphics.rs`. -/
structure RectangleShape where
  size : ℚ × ℚ
  fill_color : Color
  outline_thickness : ℚ
  outline_color : Color
  geometry : VertexBuffers
deriving DecidableEq, Repr

/-- `RectangleShape::default()`. -/
def RectangleShape.default : RectangleShape :=
  ⟨(0, 0), Color.WHITE, 0, Color.WHITE, VertexBuffers.new⟩

/-- `RectangleShape::update` (`graphics.rs` lines 375-390): the box
`[(0,0), (size.x, size.y)]` with positive winding, tessellated into the cache. -/
def RectangleShape.update (s : RectangleShape) (tess : Tesselator) : RectangleShape :=
  { s with geometry :=
      (tesselate tess (Path.rect (0, 0) (s.size.1, s.size.2))
        s.fill_color s.outline_color s.outline_thickness s.geometry) }

/-- `LineShape` from `graphics.rs`; `angle` is in degrees as in the source. -/
structure LineShape where
  length : ℚ
  angle : ℚ
  outline_thickness : ℚ
  outline_color : Color
  geometry : VertexBuffers
deriving DecidableEq, Repr

/-- `LineShape::default()`. -/
def LineShape.default : LineShape :=
  ⟨0, 0, 0, Color.WHITE, VertexBuffers.new⟩

/-- `LineShape::update` (`graphics.rs` lines 248-272).  The source evaluates
`a = (-angle).to_radians() + 90.to_radians()` and takes `cos a` / `sin a`;
the embedding passes cosine/sine of an angle given in degrees as explicit
function parameters `cosDeg`/`sinDeg` (so `cosDeg d = cos (d.to_radians())`),
and the source's radian sum becomes the degree sum `-angle + 90`. -/
def LineShape.update (cosDeg sinDeg : ℚ → ℚ) (s : LineShape) (tess : Tesselator) : LineShape :=
  { s with geometry :=
      (tesselate_line tess
        (Path.segment (0, 0)
          (0 + s.length * cosDeg (-s.angle + 90), 0 + s.length * sinDeg (-s.angle + 90)))
        s.outline_color s.outline_thickness s.geometry) }

/-- `PolygonShape` from `graphics.rs`; `point_count` is a `u32`. -/
structure PolygonShape where
  radius : ℚ
  point_count : ℕ
  fill_color : Color
  outline_thickness : ℚ
  outline_color : Color
  geometry : VertexBuffers
deriving DecidableEq, Repr

/-- `PolygonShape::default()` (`point_count = 3`). -/
def PolygonShape.default : PolygonShape :=
  ⟨0, 3, Color.WHITE, 0, Color.WHITE, VertexBuffers.new⟩

/-- The boundary points built by `PolygonShape::update` (`graphics.rs` lines
312-321): point `i` is `(r + r*cos a, r + r*sin a)` with
`a = i / point_count * 360.to_radians() + 90.to_radians()`; with the
degree-parameterised trigonometry (`cosDeg d = cos (d.to_radians())`) the
angle is the degree value `i / point_count * 360 + 90`. -/
def polygonPoints (cosDeg sinDeg : ℚ → ℚ) (point_count : ℕ) (radius : ℚ) :
    List (ℚ × ℚ) :=
  (List.range point_count).map (fun (i : ℕ) =>
    (radius + radius * cosDeg ((i : ℚ) / (point_count : ℚ) * 360 + 90),
     radius + radius * sinDeg ((i : ℚ) / (point_count : ℚ) * 360 + 90)))

/-- `PolygonShape::update` (`graphics.rs` lines 309-340): only when
`point_count >= 3`, build the closed polygon of `polygonPoints` and
tessellate it into the cache; otherwise do nothing at all. -/
def PolygonShape.update (cosDeg sinDeg : ℚ → ℚ) (s : PolygonShape)
    (tess : Tesselator) : PolygonShape :=
  if 3 ≤ s.point_count then
    { s with geometry :=
        (tesselate tess (Path.polygon (polygonPoints cosDeg sinDeg s.point_count s.radius) true)
          s.fill_color s.outline_color s.outline_thickness s.geometry) }
  else
    s

/-! ## A concrete reference tessellator

The `lyon` tessellators live in an external crate, so concrete evaluations
need a stand-in instance of `Tesselator`.  It is modelled from the spec's
Curve Tessellator contract and is used only to build concrete inputs; every
universal theorem below quantifies over an arbitrary `Tesselator`. -/

/-- Modelled from the spec: the boundary points of a path primitive (the
circle boundary, which the spec only constrains up to tolerance, is
abstracted to a coarse 4-point polygonization). -/
def pathPoints : Path → List (ℚ × ℚ)
  | Path.circle c r => [(c.1 + r, c.2), (c.1, c.2 + r), (c.1 - r, c.2), (c.1, c.2 - r)]
  | Path.rect pmin pmax => [pmin, (pmax.1, pmin.2), pmax, (pmin.1, pmax.2)]
  | Path.polygon points _ => points
  | Path.segment pfrom pto => [pfrom, pto]

/-- Modelled from the spec: fill triangulation of a closed boundary as a
triangle fan from the first boundary point. -/
def specFill (path : Path) (_tolerance : ℚ) : List (ℚ × ℚ) × List ℕ :=
  let pts := pathPoints path
  (pts, (List.range (pts.length - 2)).flatMap (fun k => [0, k + 1, k + 2]))

/-- Modelled from the spec: stroke triangulation as a quad ribbon along the
boundary (two rails of boundary points; the rail offset by the line width is
abstracted to the boundary positions themselves). -/
def specStroke (path : Path) (_tolerance _width : ℚ) : List (ℚ × ℚ) × List ℕ :=
  let pts := pathPoints path
  let n := pts.length
  (pts ++ pts,
   (List.range (n - 1)).flatMap (fun k => [k, n + k, n + k + 1, k, n + k + 1, k + 1]))

/-- Modelled from the spec: a concrete `Tesselator` built from `specFill` and
`specStroke`, at the engine's default tolerance `0.02`. -/
def specTesselator : Tesselator :=
  ⟨1 / 50, specFill, specStroke⟩

/-- Modelled from the spec: rational stand-ins for the `f32` cosine of an
angle in degrees, at the angles a 3-gon update evaluates (90, 210, 330
degrees); `433/500` approximates `cos 30 = 0.866...`. -/
def cosDegTable (d : ℚ) : ℚ :=
  if d = 90 then 0 else if d = 210 then -433 / 500 else if d = 330 then 433 / 500 else 0

/-- Modelled from the spec: rational stand-ins for the `f32` sine of an angle
in degrees, at the angles a 3-gon update evaluates. -/
def sinDegTable (d : ℚ) : ℚ :=
  if d = 90 then 1 else if d = 210 then -1 / 2 else if d = 330 then -1 / 2 else 0

/-! ## Scene assembly (`lib.rs` lines 285-319)

`start` walks the `(Transform, Drawable)` pairs, computes the world matrix,
pushes every cached vertex transformed by it, and pushes every cached index
offset by `vertices.len() as u16`.  The `as u16` cast truncates the running
vertex count modulo 2^16, and the `u16` addition `index_offset + i` also
wraps modulo 2^16 (release semantics); both are modelled with `% 65536`.
The `match` in `lib.rs` has arms only for `Drawable::Circle` and
`Drawable::Rect` (the only variants that version of the loop constructs);
the arms are textually identical up to the variant name, and the embedding
assembles the remaining `components.rs` variants by the same code. -/

/-- `Drawable` from `components.rs`. -/
inductive Drawable where
  | Circle (s : CircleShape)
  | Line (s : LineShape)
  | Polygon (s : PolygonShape)
  | Rect (s : RectangleShape)
deriving DecidableEq, Repr

/-- The `vertices()` accessor of the matched shape (each shape's `vertices`
returns its cache's vertex list). -/
def Drawable.vertices : Drawable → List GeometryVertex
  | Drawable.Circle s => s.geometry.vertices
  | Drawable.Line s => s.geometry.vertices
  | Drawable.Polygon s => s.geometry.vertices
  | Drawable.Rect s => s.geometry.vertices

/-- The `indices()` accessor of the matched shape. -/
def Drawable.indices : Drawable → List ℕ
  | Drawable.Circle s => s.geometry.indices
  | Drawable.Line s => s.geometry.indices
  | Drawable.Polygon s => s.geometry.indices
  | Drawable.Rect s => s.geometry.indices

/-- The GPU `Vertex` of `lib.rs` (`renderer::Vertex`): transformed position
and the color array. -/
structure Vertex where
  position : ℚ × ℚ
  color : List ℚ
deriving DecidableEq, Repr

/-- One iteration of the frame-assembly loop in `lib.rs` (lines 288-319):
compute the transformation matrix, record `index_offset = vertices.len() as
u16`, append the transformed cached vertices, then append the cached indices
offset by `index_offset` (`u16` arithmetic wraps modulo 2^16). -/
def assembleStep (acc : List Vertex × List ℕ) (pair : Transform × Drawable) :
    List Vertex × List ℕ :=
  let t := compute_transformation_matrix pair.1
  let index_offset := acc.1.length % 65536
  (acc.1 ++ pair.2.vertices.map (fun v => ⟨transformPt t v.position, v.color.to_array⟩),
   acc.2 ++ pair.2.indices.map (fun i => (index_offset + i) % 65536))

/-- The whole frame-assembly loop of `lib.rs`, starting from the two empty
`Vec`s of line 285-286. -/
def assembleFrame (pairs : List (Transform × Drawable)) : List Vertex × List ℕ :=
  pairs.foldl assembleStep ([], [])

/-! ## The primitive renderer (`renderer.rs` and `shape.rs`) -/

/-- `GEOMETRY_PRIMITIVES_BUFFER_LEN` from `renderer.rs` line 19. -/
def GEOMETRY_PRIMITIVES_BUFFER_LEN : ℕ := 256

/-- `GeometryPrimitive` from `renderer.rs` lines 92-103 (the three padding
fields carry no behavior and keep their zero defaults). -/
structure GeometryPrimitive where
  color : List ℚ
  translate : ℚ × ℚ
  scale : ℚ × ℚ
  origin : ℚ × ℚ
  rotate : ℚ
  z_index : ℤ
  width : ℚ
deriving DecidableEq, Repr

/-- `GeometryPrimitive::default()` from `renderer.rs` lines 105-120. -/
def GeometryPrimitive.default : GeometryPrimitive :=
  ⟨[1, 1, 1, 1], (0, 0), (1, 1), (0, 0), 0, 0, 0⟩

/-- `GeometryPrimitive::FILL_Z_INDEX` from `renderer.rs`. -/
def GeometryPrimitive.FILL_Z_INDEX : ℤ := 0

/-- `GeometryPrimitive::STROKE_Z_INDEX` from `renderer.rs`. -/
def GeometryPrimitive.STROKE_Z_INDEX : ℤ := 0

/-- `Rect` from `shape.rs`.  `rotation` stays in degrees as in the source;
the `(-rotation).to_radians()` evaluation inside the primitive builders is
carried by the explicit `toRadians` parameter below. -/
structure Rect where
  position : ℚ × ℚ
  size : ℚ × ℚ
  rotation : ℚ
  origin : ℚ × ℚ
  z_index : ℤ
  fill_color : Color
  outline_width : ℚ
  outline_color : Color
deriving DecidableEq, Repr

/-- `Rect::default()` from `shape.rs`. -/
def Rect.default : Rect :=
  ⟨(0, 0), (1, 1), 0, (0, 0), 0, Color.WHITE, 0, Color.WHITE⟩

/-- `Rect::fill_primitive` from `shape.rs` lines 61-71: overwrite every field
of the primitive except `width` (the source line `primitive.width =
primitive.width` keeps the old value). -/
def Rect.fill_primitive (toRadians : ℚ → ℚ) (r : Rect)
    (primitive : GeometryPrimitive) : GeometryPrimitive :=
  { primitive with
    color := r.fill_color.to_array
    translate := r.position
    rotate := toRadians (-r.rotation)
    scale := r.size
    origin := r.origin
    z_index := GeometryPrimitive.FILL_Z_INDEX + r.z_index }

/-- `Rect::stroke_primitive` from `shape.rs` lines 73-98: the outline is
half-width adjusted and offset exactly as the source computes it. -/
def Rect.stroke_primitive (toRadians : ℚ → ℚ) (r : Rect)
    (primitive : GeometryPrimitive) : GeometryPrimitive :=
  let outline_width := r.outline_width * (1 / 2)
  let outline_size := (r.size.1 + r.outline_width, r.size.2 + r.outline_width)
  let outline_position := (r.position.1 - outline_width, r.position.2 - outline_width)
  { primitive with
    color := r.outline_color.to_array
    translate := outline_position
    rotate := toRadians (-r.rotation)
    scale := outline_size
    origin := r.origin
    z_index := GeometryPrimitive.STROKE_Z_INDEX + r.z_index
    width := outline_width }

/-- `Scene` from `renderer.rs` lines 196-215 (the camera reference it also
holds is irrelevant to `draw_shape` and omitted). -/
structure Scene where
  geometry_primitives : List GeometryPrimitive
  geometry_rect_instances : ℕ
deriving DecidableEq, Repr

/-- `Scene::new` (`renderer.rs` lines 203-214): a buffer of
`GEOMETRY_PRIMITIVES_BUFFER_LEN` default primitives, zero instances. -/
def Scene.new : Scene :=
  ⟨List.replicate GEOMETRY_PRIMITIVES_BUFFER_LEN GeometryPrimitive.default, 0⟩

/-- `Renderer::draw_shape` (`renderer.rs` lines 572-585): with
`primitive_id = 2 * geometry_rect_instances`, assert
`primitive_id <= GEOMETRY_PRIMITIVES_BUFFER_LEN - 3`, write the stroke
primitive at `primitive_id` and the fill primitive at `primitive_id + 1`,
and bump the instance count.  A failed assertion (a panic) is `none`. -/
def draw_shape (toRadians : ℚ → ℚ) (scene : Scene) (shape : Rect) : Option Scene :=
  let primitive_id := scene.geometry_rect_instances * 2
  if primitive_id ≤ GEOMETRY_PRIMITIVES_BUFFER_LEN - 3 then
    let afterStroke := scene.geometry_primitives.set primitive_id
      (shape.stroke_primitive toRadians
        (scene.geometry_primitives.getD primitive_id GeometryPrimitive.default))
    some ⟨afterStroke.set (primitive_id + 1)
        (shape.fill_primitive toRadians
          (afterStroke.getD (primitive_id + 1) GeometryPrimitive.default)),
      scene.geometry_rect_instances + 1⟩
  else
    none

/-- Drawing the same shape `n` times in a row into a fresh scene (the loop a
caller of `draw_shape` runs); `none` as soon as any draw panics. -/
def iterDraw (toRadians : ℚ → ℚ) (shape : Rect) : ℕ → Option Scene
  | 0 => some Scene.new
  | n + 1 => (iterDraw toRadians shape n).bind (fun s => draw_shape toRadians s shape)

/-! ## Simulation clock

No fixed-timestep clock exists under `src/`: the engine loop the examples
drive (`papercut::start`, providing `Game::on_update` with a `dt`) is not
part of the sources, so the clock is modelled from the spec alone. -/

/-- Modelled from the spec: the fixed simulation step, 1/100 s. -/
def FIXED_STEP : ℚ := 1 / 100

/-- Modelled from the spec: the cap applied to raw elapsed wall time before
accumulation, the time equivalent of 40 updates per second. -/
def FRAME_CAP : ℚ := 1 / 40

/-- Modelled from the spec (missing from `src/`: the `papercut` engine loop):
one platform frame of the Simulation Clock.  The raw elapsed time is clamped
to `FRAME_CAP` and accumulated; then fixed updates run while the accumulator
holds at least `FIXED_STEP`, each subtracting one step (expressed by the
floor of the quotient); the frame ends with one render.  Returns
(updates run, remaining accumulator, renders run). -/
def clockFrame (acc elapsed : ℚ) : ℕ × ℚ × ℕ :=
  let total := acc + min elapsed FRAME_CAP
  let steps := (⌊total / FIXED_STEP⌋).toNat
  (steps, total - steps * FIXED_STEP, 1)

/-! ## Spec-side definitions for the refinement claims -/

/-- Spec-side point operation: translate a point by `d`. -/
def translatePt (d p : ℚ × ℚ) : ℚ × ℚ := (p.1 + d.1, p.2 + d.2)

/-- Spec-side point operation: componentwise scale. -/
def scalePt (s p : ℚ × ℚ) : ℚ × ℚ := (s.1 * p.1, s.2 * p.2)

/-- Spec-side point operation: rotation by the negated angle, where
`(c, s)` is the cosine/sine pair of the (un-negated) angle. -/
def rotateNegPt (c s : ℚ) (p : ℚ × ℚ) : ℚ × ℚ :=
  (c * p.1 + s * p.2, -s * p.1 + c * p.2)

/-- The spec's stated composition for `to_world_matrix`, as the action on a
point (matrix-product order, so the rightmost factor - the scale - acts
first): scale, translate by `-pivot`, rotate by `-rotation`, translate by
`pivot`, translate by `translation - pivot`. -/
def specComposedTransform (t : Transform) (p : ℚ × ℚ) : ℚ × ℚ :=
  translatePt (t.translation.1 - t.origin.1, t.translation.2 - t.origin.2)
    (translatePt t.origin
      (rotateNegPt t.rotCos t.rotSin
        (translatePt (-t.origin.1, -t.origin.2)
          (scalePt t.scale p))))

/-- The spec's polygon boundary angles, in degrees: `90 + k * (360 / n)` for
`k = 0 .. n-1`. -/
def specPolygonAngles (n : ℕ) : List ℚ :=
  (List.range n).map (fun (k : ℕ) => 90 + (k : ℚ) * (360 / (n : ℚ)))

/-- The spec's polygon boundary: points on the circle of radius `r` centered
at `(r, r)` at the angles of `specPolygonAngles`. -/
def specPolygonBoundary (cosD sinD : ℚ → ℚ) (n : ℕ) (r : ℚ) : List (ℚ × ℚ) :=
  (specPolygonAngles n).map (fun a => (r + r * cosD a, r + r * sinD a))

/-! ## Helper lemmas -/

/-- Assembling a two-pair frame: the index buffer is the first shape's
indices reduced modulo 2^16 followed by the second shape's indices offset by
the first shape's vertex count, everything reduced modulo 2^16 as the `as
u16` cast and `u16` addition dictate. -/
lemma assembleFrame_pair_snd (t1 t2 : Transform) (A B : Drawable) :
    (assembleFrame [(t1, A), (t2, B)]).2 =
      A.indices.map (fun i => i % 65536) ++
      B.indices.map (fun i => (A.vertices.length % 65536 + i) % 65536) := by
  simp only [assembleFrame, List.foldl, assembleStep, List.nil_append, List.length_nil,
    Nat.zero_mod, Nat.zero_add, List.length_append, List.length_map]

/-- Assembling a two-pair frame produces one transformed vertex per cached
vertex. -/
lemma assembleFrame_pair_fst_len (t1 t2 : Transform) (A B : Drawable) :
    (assembleFrame [(t1, A), (t2, B)]).1.length =
      A.vertices.length + B.vertices.length := by
  simp [assembleFrame, List.foldl, assembleStep]

/-- A `draw_shape` call succeeds exactly when the assertion
`2 * instances <= GEOMETRY_PRIMITIVES_BUFFER_LEN - 3` holds. -/
lemma draw_shape_isSome_iff (f : ℚ → ℚ) (s : Scene) (sh : Rect) :
    (draw_shape f s sh).isSome ↔
      s.geometry_rect_instances * 2 ≤ GEOMETRY_PRIMITIVES_BUFFER_LEN - 3 := by
  dsimp only [draw_shape]
  split <;> simp_all

/-- A successful `draw_shape` bumps the instance count by one. -/
lemma draw_shape_count (f : ℚ → ℚ) (s : Scene) (sh : Rect) (s2 : Scene)
    (h : draw_shape f s sh = some s2) :
    s2.geometry_rect_instances = s.geometry_rect_instances + 1 := by
  dsimp only [draw_shape] at h
  split at h
  · cases h; rfl
  · cases h

/-- Up to 127 consecutive `draw_shape` calls on a fresh scene all succeed,
and the instance count equals the number of draws. -/
lemma iterDraw_le (f : ℚ → ℚ) (sh : Rect) :
    ∀ k, k ≤ 127 → ∃ s, iterDraw f sh k = some s ∧ s.geometry_rect_instances = k := by
  intro k
  induction k with
  | zero => exact fun _ => ⟨Scene.new, rfl, rfl⟩
  | succ n ih =>
    intro h
    obtain ⟨s, hs, hc⟩ := ih (by omega)
    have hsome : (draw_shape f s sh).isSome := by
      rw [draw_shape_isSome_iff, hc, GEOMETRY_PRIMITIVES_BUFFER_LEN]
      omega
    obtain ⟨s2, hs2⟩ := Option.isSome_iff_exists.mp hsome
    refine ⟨s2, ?_, ?_⟩
    · show (iterDraw f sh n).bind _ = _
      rw [hs, Option.some_bind, hs2]
    · rw [draw_shape_count f s sh s2 hs2, hc]

/-! ## Concrete inputs used by the claim theorems -/

/-- A transform with rotation 90 degrees (cosine 0, sine 1), unit scale and
pivot `(1, 0)`: the concrete input on which the inverse fails. -/
def tC1 : Transform := ⟨(0, 0), 0, 1, (1, 1), (1, 0)⟩

/-- The rectangle shape on which double `update` is evaluated. -/
def rectC2 : RectangleShape := ⟨(1, 1), Color.WHITE, 0, Color.WHITE, VertexBuffers.new⟩

/-- A single white vertex at the local origin. -/
def vtx0 : GeometryVertex := ⟨(0, 0), Color.WHITE⟩

/-- A drawable whose cache holds exactly 2^16 vertices (no indices): the
result of a very fine tessellation. -/
def bigDrawable : Drawable :=
  Drawable.Circle ⟨0, Color.WHITE, 0, Color.WHITE, ⟨List.replicate 65536 vtx0, []⟩⟩

/-- A drawable with one cached vertex and the single cached index `0`. -/
def smallDrawable : Drawable :=
  Drawable.Circle ⟨0, Color.WHITE, 0, Color.WHITE, ⟨[vtx0], [0]⟩⟩

/-- A drawable with two cached vertices and the single cached index `1`. -/
def smallDrawable1 : Drawable :=
  Drawable.Circle ⟨0, Color.WHITE, 0, Color.WHITE, ⟨[vtx0, vtx0], [1]⟩⟩

/-- The big drawable indeed caches 2^16 vertices. -/
lemma bigDrawable_len : bigDrawable.vertices.length = 65536 := by
  show (List.replicate 65536 vtx0).length = 65536
  rw [List.length_replicate]

/-- A transform with identity rotation, scale `(2, 2)` and pivot `(1, 1)`:
the concrete input on which the pivot does not map to the translation. -/
def tC4pivot : Transform := ⟨(0, 0), 1, 0, (2, 2), (1, 1)⟩

/-- A transform with rotation 90 degrees, unit scale and pivot `(1, 0)`,
used to witness the pivot property at unit scale. -/
def tC4unit : Transform := ⟨(5, 7), 0, 1, (1, 1), (1, 0)⟩

/-- First shape of the spec's remapping example: 3 cached vertices, 4 cached
indices. -/
def drawableA5 : Drawable :=
  Drawable.Circle ⟨0, Color.WHITE, 0, Color.WHITE, ⟨[vtx0, vtx0, vtx0], [0, 1, 2, 0]⟩⟩

/-- Second shape of the spec's remapping example: 4 cached vertices, 6 cached
indices. -/
def drawableB5 : Drawable :=
  Drawable.Rect ⟨(1, 1), Color.WHITE, 0, Color.WHITE,
    ⟨[vtx0, vtx0, vtx0, vtx0], [0, 1, 2, 0, 2, 3]⟩⟩

/-- A polygon shape with 5 points and radius 100, the spec's example. -/
def polyC6 : PolygonShape := ⟨100, 5, Color.WHITE, 0, Color.WHITE, VertexBuffers.new⟩

/-- A polygon shape with 3 points and radius 100, tessellated once. -/
def polyC8 : PolygonShape := ⟨100, 3, Color.WHITE, 0, Color.WHITE, VertexBuffers.new⟩

/-- The same shape after its first `update`, with `point_count` then lowered
to 2 (a parameter edit a caller may make at any time). -/
def polyC8small : PolygonShape :=
  { polyC8.update cosDegTable sinDegTable specTesselator with point_count := 2 }

/-- A polygon shape with `point_count = 2` and an empty cache. -/
def polyC8fresh : PolygonShape := ⟨100, 2, Color.WHITE, 0, Color.WHITE, VertexBuffers.new⟩

/-! ## Claim theorems -/

/-- C1: the claim states that `compute_inverse_transformation_matrix` is the
exact matrix inverse of `compute_transformation_matrix` on points, for every
non-zero-scale transform, including non-zero pivot together with non-zero
rotation.  The code contradicts this: on the transform `tC1` (unit scale -
so inside the claim's domain - with rotation 90 degrees, a genuine
cosine/sine pair, and pivot `(1, 0)`), the roundtrip of the point `(0, 0)`
lands at `(-1, 1)`.  The inverse multiplies `R(rotation)` directly onto
`T(origin - translation)` without conjugating the rotation by the origin
translation, so the origin offset is rotated once too often. -/
theorem C1_inverse_roundtrip_fails_concrete :
    transformPt (compute_inverse_transformation_matrix tC1)
      (transformPt (compute_transformation_matrix tC1) (0, 0)) = (-1, 1) ∧
    ((-1, 1) : ℚ × ℚ) ≠ (0, 0) ∧
    tC1.scale.1 ≠ 0 ∧ tC1.scale.2 ≠ 0 ∧
    tC1.rotCos ^ 2 + tC1.rotSin ^ 2 = 1 := by
  norm_num [tC1, compute_transformation_matrix, compute_inverse_transformation_matrix,
    matMul, from_translation, from_rotation_z, from_scale, transformPt, Prod.ext_iff]

/-- C2: the claim states that `update` overwrites the geometry cache in
place, so a second `update` with unchanged parameters leaves the same cache
contents as one.  The code appends instead (the `lyon` buffers builder
appends to the wrapped buffers and `update` never clears them): updating
`rectC2` once caches 4 vertices, updating it twice caches 8, and the two
caches differ. -/
theorem C2_update_accumulates_concrete :
    (rectC2.update specTesselator).geometry.vertices.length = 4 ∧
    ((rectC2.update specTesselator).update specTesselator).geometry.vertices.length = 8 ∧
    ((rectC2.update specTesselator).update specTesselator).geometry ≠
      (rectC2.update specTesselator).geometry := by
  norm_num [rectC2, RectangleShape.update, tesselate, specTesselator, specFill, specStroke,
    pathPoints, appendGeometry, VertexBuffers.new, List.range_succ]
  simp

/-- C3 (amended): the frame assembler performs no capacity check at all; the
running vertex count is truncated by the `as u16` cast, so once a frame
already holds 2^16 vertices the next shape's indices are appended reduced
modulo 2^16 - silently wrapped into the range of the earlier shapes - and
no error value exists anywhere in the loop. -/
theorem C3_vertex_overflow_wraps (t1 t2 : Transform) (A B : Drawable)
    (hA : A.vertices.length = 65536) (hAi : A.indices = []) (hBi : B.indices = [0]) :
    (assembleFrame [(t1, A), (t2, B)]).2 = [0] := by
  rw [assembleFrame_pair_snd, hA, hAi, hBi]
  norm_num

/-- C3 witness: the wrap realized on concrete drawables. -/
theorem C3_vertex_overflow_wraps_witness :
    (assembleFrame [(Transform.default, bigDrawable), (Transform.default, smallDrawable)]).2
      = [0] :=
  C3_vertex_overflow_wraps Transform.default Transform.default bigDrawable smallDrawable
    bigDrawable_len rfl rfl

/-- C3 counterexample: a frame whose first shape caches exactly 2^16
vertices assembles without any error into 65537 vertices, and the second
shape's index 0 is emitted as 0 - the same slot as the first shape's first
vertex - instead of the unrepresentable 65536: the assembler silently wraps
rather than surfacing a capacity error. -/
theorem C3_no_capacity_error_counterexample :
    (assembleFrame [(Transform.default, bigDrawable), (Transform.default, smallDrawable)]).1.length
      = 65537 ∧
    (assembleFrame [(Transform.default, bigDrawable), (Transform.default, smallDrawable)]).2
      ≠ [65536] := by
  constructor
  · rw [assembleFrame_pair_fst_len, bigDrawable_len]
    have h3 : smallDrawable.vertices.length = 1 := rfl
    rw [h3]
  · rw [assembleFrame_pair_snd, bigDrawable_len]
    have h1 : bigDrawable.indices = [] := rfl
    have h2 : smallDrawable.indices = [0] := rfl
    rw [h1, h2]
    norm_num

/-- C4 (amended): `compute_transformation_matrix` composes exactly in the
spec's stated factor order (scale acting first, then the pivot-conjugated
negated rotation, then the translation), and the pivot point maps to the
translation whenever `scale = (1, 1)`; because the scale factor sits inside
the pivot conjugation, scaling is centered on the shape's local origin, not
on the pivot, and the pivot is not fixed under non-unit scale. -/
theorem C4_matrix_composition_order (t : Transform) (p : ℚ × ℚ) :
    transformPt (compute_transformation_matrix t) p = specComposedTransform t p ∧
    (t.scale = (1, 1) →
      transformPt (compute_transformation_matrix t) t.origin = t.translation) := by
  constructor
  · simp only [compute_transformation_matrix, matMul, from_translation, from_rotation_z,
      from_scale, transformPt, specComposedTransform, translatePt, scalePt, rotateNegPt]
    rw [Prod.mk.injEq]
    constructor <;> ring
  · intro h
    simp only [compute_transformation_matrix, matMul, from_translation, from_rotation_z,
      from_scale, transformPt, h]
    rw [Prod.mk.injEq]
    constructor <;> ring

/-- C4 witness: at unit scale (and a genuine 90-degree rotation with
non-zero pivot) the pivot maps exactly to the translation. -/
theorem C4_matrix_composition_order_witness :
    tC4unit.scale = (1, 1) ∧
    transformPt (compute_transformation_matrix tC4unit) tC4unit.origin
      = tC4unit.translation :=
  ⟨rfl, (C4_matrix_composition_order tC4unit tC4unit.origin).2 rfl⟩

/-- C4 counterexample: with scale `(2, 2)`, identity rotation, pivot
`(1, 1)` and translation `(0, 0)`, the pivot maps to `(1, 1)`, not to the
translation - scaling is not centered on the pivot. -/
theorem C4_pivot_not_translation_counterexample :
    transformPt (compute_transformation_matrix tC4pivot) tC4pivot.origin = (1, 1) ∧
    ((1, 1) : ℚ × ℚ) ≠ tC4pivot.translation := by
  norm_num [tC4pivot, compute_transformation_matrix,
    matMul, from_translation, from_rotation_z, from_scale, transformPt, Prod.ext_iff]

/-- C5 (amended): the assembler offsets each shape's cached indices by the
running vertex count reduced modulo 2^16 (`as u16`); whenever every
resulting index fits in 16 bits - in particular whenever the whole frame
stays at or below 65535 vertices - a two-shape frame yields the first
shape's indices unchanged followed by the second shape's indices increased
by exactly the first shape's vertex count. -/
theorem C5_index_remapping (t1 t2 : Transform) (A B : Drawable)
    (hA : ∀ i ∈ A.indices, i < 65536)
    (hAv : A.vertices.length < 65536)
    (hB : ∀ i ∈ B.indices, A.vertices.length + i < 65536) :
    (assembleFrame [(t1, A), (t2, B)]).2 =
      A.indices ++ B.indices.map (fun i => A.vertices.length + i) := by
  rw [assembleFrame_pair_snd]
  congr 1
  · simpa using List.map_congr_left (fun i hi => Nat.mod_eq_of_lt (hA i hi))
  · refine List.map_congr_left (fun i hi => ?_)
    rw [Nat.mod_eq_of_lt hAv, Nat.mod_eq_of_lt (hB i hi)]

/-- C5 witness: the spec's 4-indices/6-indices example, remapped by the
first shape's vertex count 3. -/
theorem C5_index_remapping_witness :
    (assembleFrame [(Transform.default, drawableA5), (Transform.default, drawableB5)]).2
      = [0, 1, 2, 0] ++ [0, 1, 2, 0, 2, 3].map (fun i => 3 + i) :=
  C5_index_remapping Transform.default Transform.default drawableA5 drawableB5
    (by decide) (by decide) (by decide)

/-- C5 counterexample: the claim quantifies over every sequence of pairs,
but once the running vertex count reaches 2^16 the second shape's cached
index 1 is emitted as 1 - not increased by the first shape's vertex count
65536 (which would give 65537): the offset is applied modulo 2^16. -/
theorem C5_offset_wraps_counterexample :
    (assembleFrame [(Transform.default, bigDrawable), (Transform.default, smallDrawable1)]).2
      = [1] ∧
    ([1] : List ℕ) ≠ [65536 + 1] := by
  constructor
  · rw [assembleFrame_pair_snd, bigDrawable_len]
    have h1 : bigDrawable.indices = [] := rfl
    have h2 : smallDrawable1.indices = [1] := rfl
    rw [h1, h2]
    norm_num
  · norm_num

/-- C6: for every `point_count = n` and radius `r`, the boundary the polygon
update builds consists of exactly `n` points on the circle of radius `r`
centered at `(r, r)` at the evenly spaced degree angles `90 + k * (360/n)`
(first point at 90 degrees, "up"); for `n = 5` those angles are
`90 + 72k`; and for `point_count >= 3` the update hands exactly the closed
polygon over this spec boundary to the tessellator. -/
theorem C6_polygon_boundary (cosD sinD : ℚ → ℚ) (n : ℕ) (r : ℚ) :
    polygonPoints cosD sinD n r = specPolygonBoundary cosD sinD n r ∧
    (polygonPoints cosD sinD n r).length = n ∧
    specPolygonAngles 5 = [90, 162, 234, 306, 378] ∧
    (∀ (s : PolygonShape) (tess : Tesselator), 3 ≤ s.point_count →
      s.update cosD sinD tess =
        { s with geometry :=
            (tesselate tess
              (Path.polygon (specPolygonBoundary cosD sinD s.point_count s.radius) true)
              s.fill_color s.outline_color s.outline_thickness s.geometry) }) := by
  have key : ∀ (m : ℕ) (q : ℚ),
      polygonPoints cosD sinD m q = specPolygonBoundary cosD sinD m q := by
    intro m q
    rw [polygonPoints, specPolygonBoundary, specPolygonAngles, List.map_map]
    refine List.map_congr_left (fun i _ => ?_)
    have ha : (i : ℚ) / (m : ℚ) * 360 + 90 = 90 + (i : ℚ) * (360 / (m : ℚ)) := by ring
    simp [Function.comp, ha]
  refine ⟨key n r, ?_, ?_, ?_⟩
  · rw [polygonPoints, List.length_map, List.length_range]
  · rw [specPolygonAngles]
    norm_num [List.range_succ]
  · intro s tess h
    rw [PolygonShape.update, if_pos h, key]

/-- C6 witness: the spec's 5-point, radius-100 polygon, with the identity as
the degree-trigonometry stand-in. -/
theorem C6_polygon_boundary_witness :
    3 ≤ polyC6.point_count ∧
    polyC6.update id id specTesselator =
      { polyC6 with geometry :=
          (tesselate specTesselator
            (Path.polygon (specPolygonBoundary id id polyC6.point_count polyC6.radius) true)
            polyC6.fill_color polyC6.outline_color polyC6.outline_thickness
            polyC6.geometry) } :=
  ⟨by decide,
   (C6_polygon_boundary id id 5 100).2.2.2 polyC6 specTesselator (by decide)⟩

/-- C7: for every tessellator, path, colors and buffer, an outline thickness
at or below zero makes `tesselate` emit exactly the fill geometry (the
stroke step is skipped entirely, appending no outline vertices or indices)
and makes `tesselate_line` leave the buffer untouched. -/
theorem C7_outline_skipped (tess : Tesselator) (path : Path) (fc oc : Color)
    (w : ℚ) (g : VertexBuffers) (h : w ≤ 0) :
    tesselate tess path fc oc w g = appendGeometry g (tess.fillTess path tess.tolerance) fc ∧
    tesselate_line tess path oc w g = g := by
  constructor
  · rw [tesselate, if_neg (not_lt.mpr h)]
  · rw [tesselate_line, if_neg (not_lt.mpr h)]

/-- C7 witness: thickness 0 on a concrete rectangle path and the reference
tessellator. -/
theorem C7_outline_skipped_witness :
    tesselate specTesselator (Path.rect (0, 0) (1, 1)) Color.WHITE Color.BLACK 0
        VertexBuffers.new
      = appendGeometry VertexBuffers.new
          (specTesselator.fillTess (Path.rect (0, 0) (1, 1)) specTesselator.tolerance)
          Color.WHITE ∧
    tesselate_line specTesselator (Path.rect (0, 0) (1, 1)) Color.BLACK 0
        VertexBuffers.new
      = VertexBuffers.new :=
  C7_outline_skipped specTesselator (Path.rect (0, 0) (1, 1)) Color.WHITE Color.BLACK 0
    VertexBuffers.new (le_refl 0)

/-- C8 (amended): a polygon `update` with `point_count < 3` performs no
tessellation, does not fail, and leaves the shape - cache included - exactly
as it was; so the cache is empty afterwards only if it was empty before (a
freshly constructed shape keeps its empty geometry, but the update does not
empty a previously filled cache). -/
theorem C8_update_noop_below_three (cosD sinD : ℚ → ℚ) (s : PolygonShape)
    (tess : Tesselator) (h : s.point_count < 3) :
    s.update cosD sinD tess = s := by
  rw [PolygonShape.update, if_neg (by omega)]

/-- C8 witness: a fresh 2-point polygon is left untouched, with its empty
cache. -/
theorem C8_update_noop_below_three_witness :
    polyC8fresh.point_count < 3 ∧
    polyC8fresh.update id id specTesselator = polyC8fresh ∧
    polyC8fresh.geometry = VertexBuffers.new :=
  ⟨by decide, C8_update_noop_below_three id id polyC8fresh specTesselator (by decide), rfl⟩

/-- C8 counterexample: a polygon tessellated at `point_count = 3` and then
edited to `point_count = 2` keeps its old geometry across the next `update`:
the cache afterwards is not empty, contradicting the claim that the update
results in empty geometry. -/
theorem C8_cache_not_emptied_counterexample :
    polyC8small.point_count < 3 ∧
    polyC8small.update cosDegTable sinDegTable specTesselator = polyC8small ∧
    (polyC8small.update cosDegTable sinDegTable specTesselator).geometry.vertices ≠ [] := by
  refine ⟨by norm_num [polyC8small, polyC8, PolygonShape.update], ?_, ?_⟩
  · norm_num [polyC8small, polyC8, PolygonShape.update]
  · norm_num [polyC8small, polyC8, PolygonShape.update, tesselate, specTesselator, specFill,
      specStroke, pathPoints, appendGeometry, VertexBuffers.new, polygonPoints,
      cosDegTable, sinDegTable, List.range_succ]
    simp

/-- C9 (amended, spec-modelled): per platform frame the clock clamps the
elapsed time to the 1/40 s cap before accumulating and leaves a remainder in
`[0, 1/100)`, rendering once; starting from a legal accumulator (below one
step), at most 3 fixed updates run - the `⌊(1/40)/(1/100)⌋ = 2` of the
capped elapsed time plus at most one more carried by the remainder - and at
most 2 only when the accumulator starts empty. -/
theorem C9_clock_bounds (acc elapsed : ℚ) (h0 : 0 ≤ acc) (h1 : acc < FIXED_STEP)
    (h2 : 0 ≤ elapsed) :
    (clockFrame acc elapsed).1 ≤ 3 ∧
    0 ≤ (clockFrame acc elapsed).2.1 ∧
    (clockFrame acc elapsed).2.1 < FIXED_STEP ∧
    (clockFrame acc elapsed).2.2 ≤ 1 ∧
    (acc = 0 → (clockFrame acc elapsed).1 ≤ 2) := by
  have hstep : (0 : ℚ) < FIXED_STEP := by norm_num [FIXED_STEP]
  have hcap : (0 : ℚ) < FRAME_CAP := by norm_num [FRAME_CAP]
  set e := min elapsed FRAME_CAP with he
  have he0 : 0 ≤ e := le_min h2 hcap.le
  have hecap : e ≤ FRAME_CAP := min_le_right _ _
  set total := acc + e with ht
  have htot0 : 0 ≤ total := add_nonneg h0 he0
  have hq0 : (0 : ℚ) ≤ total / FIXED_STEP := div_nonneg htot0 hstep.le
  have hfl0 : (0 : ℤ) ≤ ⌊total / FIXED_STEP⌋ := Int.floor_nonneg.mpr hq0
  have hsteps : (clockFrame acc elapsed).1 = (⌊total / FIXED_STEP⌋).toNat := rfl
  have hrem : (clockFrame acc elapsed).2.1
      = total - ((⌊total / FIXED_STEP⌋).toNat : ℚ) * FIXED_STEP := rfl
  have hcast : (((⌊total / FIXED_STEP⌋).toNat : ℤ) : ℚ) = ((⌊total / FIXED_STEP⌋ : ℤ) : ℚ) := by
    rw [Int.toNat_of_nonneg hfl0]
  refine ⟨?_, ?_, ?_, ?_, ?_⟩
  · rw [hsteps]
    have h4 : total < 4 * FIXED_STEP := by
      have hle : total ≤ acc + FRAME_CAP := by
        rw [ht]; exact add_le_add_left hecap _
      calc total ≤ acc + FRAME_CAP := hle
        _ < FIXED_STEP + FRAME_CAP := by linarith
        _ ≤ 4 * FIXED_STEP := by norm_num [FIXED_STEP, FRAME_CAP]
    have hlt4 : ⌊total / FIXED_STEP⌋ < 4 := by
      rw [Int.floor_lt]
      push_cast
      rw [div_lt_iff₀ hstep]
      linarith
    omega
  · rw [hrem]
    have hle : ((⌊total / FIXED_STEP⌋ : ℤ) : ℚ) ≤ total / FIXED_STEP := Int.floor_le _
    have hmul : (((⌊total / FIXED_STEP⌋).toNat : ℤ) : ℚ) * FIXED_STEP ≤ total := by
      rw [hcast]
      calc ((⌊total / FIXED_STEP⌋ : ℤ) : ℚ) * FIXED_STEP
          ≤ (total / FIXED_STEP) * FIXED_STEP :=
            mul_le_mul_of_nonneg_right hle hstep.le
        _ = total := div_mul_cancel₀ _ hstep.ne'
    push_cast at hmul ⊢
    linarith
  · rw [hrem]
    have hlt : total / FIXED_STEP < ((⌊total / FIXED_STEP⌋ : ℤ) : ℚ) + 1 :=
      Int.lt_floor_add_one _
    have hup : total < ((((⌊total / FIXED_STEP⌋).toNat : ℤ) : ℚ) + 1) * FIXED_STEP := by
      rw [hcast]
      have hd := (div_lt_iff₀ hstep).mp hlt
      linarith
    push_cast at hup ⊢
    linarith
  · exact le_refl 1
  · intro ha
    rw [hsteps]
    have h3 : total < 3 * FIXED_STEP := by
      have hte : total = e := by rw [ht, ha, zero_add]
      rw [hte]
      calc e ≤ FRAME_CAP := hecap
        _ < 3 * FIXED_STEP := by norm_num [FIXED_STEP, FRAME_CAP]
    have hlt3 : ⌊total / FIXED_STEP⌋ < 3 := by
      rw [Int.floor_lt]
      push_cast
      rw [div_lt_iff₀ hstep]
      linarith
    omega

/-- C9 witness: an empty accumulator with a full 1/40 s elapsed runs at most
2 updates, leaving a legal remainder. -/
theorem C9_clock_bounds_witness :
    (clockFrame 0 (1 / 40)).1 ≤ 2 ∧
    0 ≤ (clockFrame 0 (1 / 40)).2.1 ∧
    (clockFrame 0 (1 / 40)).2.1 < FIXED_STEP :=
  ⟨(C9_clock_bounds 0 (1 / 40) (le_refl 0) (by norm_num [FIXED_STEP]) (by norm_num)).2.2.2.2
      rfl,
   (C9_clock_bounds 0 (1 / 40) (le_refl 0) (by norm_num [FIXED_STEP]) (by norm_num)).2.1,
   (C9_clock_bounds 0 (1 / 40) (le_refl 0) (by norm_num [FIXED_STEP]) (by norm_num)).2.2.1⟩

/-- C9 counterexample: the accumulator `9/1000` is a legal carry-over (below
one step), yet with a capped elapsed time of 1/40 s the frame runs 3 fixed
updates, not at most 2 as claimed. -/
theorem C9_three_updates_counterexample :
    (0 ≤ (9 / 1000 : ℚ) ∧ (9 / 1000 : ℚ) < FIXED_STEP) ∧
    (clockFrame (9 / 1000) (1 / 40)).1 = 3 ∧
    ¬ (clockFrame (9 / 1000) (1 / 40)).1 ≤ 2 := by
  have h : ((9 : ℚ) / 1000 + min ((1 : ℚ) / 40) FRAME_CAP) / FIXED_STEP = 17 / 5 := by
    norm_num [FRAME_CAP, FIXED_STEP]
  have hf : ⌊((9 : ℚ) / 1000 + min ((1 : ℚ) / 40) FRAME_CAP) / FIXED_STEP⌋ = 3 := by
    rw [h, Int.floor_eq_iff]
    norm_num
  refine ⟨⟨by norm_num, by norm_num [FIXED_STEP]⟩, ?_, ?_⟩
  · show (⌊((9 : ℚ) / 1000 + min ((1 : ℚ) / 40) FRAME_CAP) / FIXED_STEP⌋).toNat = 3
    rw [hf]; rfl
  · show ¬ (⌊((9 : ℚ) / 1000 + min ((1 : ℚ) / 40) FRAME_CAP) / FIXED_STEP⌋).toNat ≤ 2
    rw [hf]; omega

/-- C10: `draw_shape` succeeds exactly when twice the number of shapes
already drawn is at most `GEOMETRY_PRIMITIVES_BUFFER_LEN - 3` (that is,
`2n <= 253` with the buffer length fixed at 256); consequently 127
consecutive draws into a fresh scene all succeed and the 128th panics (the
assertion fails, `none`) instead of returning an error value. -/
theorem C10_draw_shape_capacity :
    (∀ (f : ℚ → ℚ) (s : Scene) (sh : Rect),
      (draw_shape f s sh).isSome ↔
        s.geometry_rect_instances * 2 ≤ GEOMETRY_PRIMITIVES_BUFFER_LEN - 3) ∧
    (iterDraw id Rect.default 127).isSome ∧
    iterDraw id Rect.default 128 = none := by
  refine ⟨draw_shape_isSome_iff, ?_, ?_⟩
  · obtain ⟨s, hs, _⟩ := iterDraw_le id Rect.default 127 (by omega)
    simp [hs]
  · obtain ⟨s, hs, hc⟩ := iterDraw_le id Rect.default 127 (by omega)
    show (iterDraw id Rect.default 127).bind _ = none
    rw [hs, Option.some_bind]
    have hno : ¬ (draw_shape id s Rect.default).isSome := by
      rw [draw_shape_isSome_iff, hc, GEOMETRY_PRIMITIVES_BUFFER_LEN]
      omega
    cases hd : draw_shape id s Rect.default
    · rfl
    · rw [hd] at hno; simp at hno

end LyonRect
